import Mathlib

/-
Verification of the panorama-stitching core against its specification.

The C++ sources are shallowly embedded over exact arithmetic:
image coordinates and matrix entries become rationals, the mean
reprojection error (which involves a square root) becomes a real, and
every call into OpenCV (SVD, least-squares homography fit, pyramid
down/up sampling, canvas allocation, the post-validation warp+blend
tail) is abstracted as an explicit function parameter, so the theorems
quantify over every possible behaviour of the external routine while
the repository's own control flow and arithmetic are translated
literally.  Line references point into the repository sources.
-/

/-! # Geometric model (src/feature_matching/ransac.h, src/config.h) -/

/-- A 2D point (cv::Point2f), embedded with exact rational coordinates. -/
abbrev Pt : Type := ℚ × ℚ

/-- A 3x3 homography matrix (cv::Mat, CV_64F 3x3), row major. -/
structure Mat3 where
  h00 : ℚ
  h01 : ℚ
  h02 : ℚ
  h10 : ℚ
  h11 : ℚ
  h12 : ℚ
  h20 : ℚ
  h21 : ℚ
  h22 : ℚ
deriving DecidableEq, Repr

/-- Apply H to the homogeneous lift (x, y, 1) of a point: the product
H * (x, y, 1)^T as computed at ransac.cpp:178-179. -/
def Mat3.apply (H : Mat3) (p : Pt) : ℚ × ℚ × ℚ :=
  (H.h00 * p.1 + H.h01 * p.2 + H.h02,
   H.h10 * p.1 + H.h11 * p.2 + H.h12,
   H.h20 * p.1 + H.h21 * p.2 + H.h22)

/-- Determinant of a 3x3 matrix (cv::determinant). -/
def Mat3.det (H : Mat3) : ℚ :=
  H.h00 * (H.h11 * H.h22 - H.h12 * H.h21)
    - H.h01 * (H.h10 * H.h22 - H.h12 * H.h20)
    + H.h02 * (H.h10 * H.h21 - H.h11 * H.h20)

/-- Scalar multiple of a matrix; `Mat3.smul (1/c) H` is the C++ `H / c`. -/
def Mat3.smul (c : ℚ) (H : Mat3) : Mat3 :=
  ⟨c * H.h00, c * H.h01, c * H.h02,
   c * H.h10, c * H.h11, c * H.h12,
   c * H.h20, c * H.h21, c * H.h22⟩

/-- The identity homography. -/
def idMat3 : Mat3 := ⟨1, 0, 0, 0, 1, 0, 0, 0, 1⟩

/-- PanoramaConfig::HOMOGRAPHY_EPSILON = 1e-10 (config.h:40), also the
literal 1e-10 used at ransac.cpp:161 and stitching_pipeline.cpp:256. -/
def homographyEpsilon : ℚ := 1 / 10 ^ 10

/-! # RANSAC inlier classification (ransac.cpp:171-194)

`RANSAC::findInliers` computes, for each correspondence i,
x = (H*p)_0 / (H*p)_2, y = (H*p)_1 / (H*p)_2 and marks i an inlier when
sqrt(dx*dx + dy*dy) < threshold.  Two double-arithmetic facts are folded
into the exact embedding:
 * for threshold t, `sqrt(e) < t` iff `0 < t` and `e < t*t`, which keeps
   the test inside ℚ;
 * when the homogeneous denominator is exactly 0 the IEEE division
   yields a non-finite x or y, the error compare is false and the point
   is not an inlier, so the embedding returns false for a zero
   denominator instead of using the ℚ convention `q / 0 = 0`.
There is no guard of any kind on the magnitude of a nonzero
denominator: the division is performed unconditionally. -/

/-- Squared reprojection error of one correspondence (p, q) under H,
`dx*dx + dy*dy` of ransac.cpp:184-186 (only used with a nonzero
homogeneous denominator, where the double division is the exact one). -/
def errSq (H : Mat3) (p q : Pt) : ℚ :=
  let v := H.apply p
  let x := v.1 / v.2.2
  let y := v.2.1 / v.2.2
  (x - q.1) * (x - q.1) + (y - q.2) * (y - q.2)

/-- Inlier test for a single correspondence, ransac.cpp:177-190. -/
def inlierTest (H : Mat3) (p q : Pt) (threshold : ℚ) : Bool :=
  if (H.apply p).2.2 = 0 then false
  else if 0 < threshold ∧ errSq H p q < threshold * threshold then true else false

/-- RANSAC::findInliers (ransac.cpp:171-194).  The C++ indexes pts2 by
the loop index over pts1; the claims only instantiate it with lists of
equal length, where the zip is the same traversal. -/
def findInliers (H : Mat3) (pts1 pts2 : List Pt) (threshold : ℚ) : List Bool :=
  (pts1.zip pts2).map fun pq => inlierTest H pq.1 pq.2 threshold

/-- std::count(mask.begin(), mask.end(), true) (ransac.cpp:64,94). -/
def countTrue (mask : List Bool) : ℕ := mask.count true

/-- Gather the entries of `ps` whose mask bit is set
(ransac.cpp:83-88). -/
def selectMasked (ps : List Pt) (mask : List Bool) : List Pt :=
  (ps.zip mask).filterMap fun x => if x.2 then some x.1 else none

/-! # Mean reprojection error (ransac.cpp:196-225)

`RANSAC::computeReprojectionError` averages the (non-squared, hence
real-valued) reprojection errors over the mask-true correspondences.
It applies no guard on the homogeneous denominator; the claims only
evaluate it at correspondences with a nonzero denominator, where the
exact quotient models the double one. -/

/-- Real-valued reprojection error of one correspondence,
sqrt(dx*dx + dy*dy) at ransac.cpp:218. -/
noncomputable def reprojErrorR (H : Mat3) (p q : Pt) : ℝ :=
  Real.sqrt ((errSq H p q : ℚ) : ℝ)

/-- RANSAC::computeReprojectionError (ransac.cpp:196-225): -1 for an
empty homography, else the mean error over mask-true correspondences,
or -1 when no correspondence is counted. -/
noncomputable def computeReprojectionError (H? : Option Mat3)
    (points1 points2 : List Pt) (inlier_mask : List Bool) : ℝ :=
  match H? with
  | none => -1
  | some H =>
    let contribs := ((points1.zip points2).zip inlier_mask).filterMap
      fun x => if x.2 = true then some (reprojErrorR H x.1.1 x.1.2) else none
    if contribs.length = 0 then -1 else contribs.sum / contribs.length

/-! # Post-loop refinement (ransac.cpp:81-96)

After the sampling loop, if the best model has at least 4 inliers the
code refits a homography by least squares over the inlier
correspondences only (`cv::findHomography(inlier_pts1, inlier_pts2, 0)`,
abstracted as the parameter `fit`), and when the fit returns a nonempty
matrix it replaces the best model and recomputes the mask and the count
against it.  There is no condition on the recomputed count. -/

/-- The refinement pass, ransac.cpp:81-96, acting on the post-loop state
(best_H, best_mask, best_inliers); returns the final state. -/
def refinePass (fit : List Pt → List Pt → Option Mat3)
    (points1 points2 : List Pt) (threshold : ℚ)
    (bestH : Option Mat3) (bestMask : List Bool) (bestInliers : ℕ) :
    Option Mat3 × List Bool × ℕ :=
  if 4 ≤ bestInliers then
    match fit (selectMasked points1 bestMask) (selectMasked points2 bestMask) with
    | some H =>
      let mask := findInliers H points1 points2 threshold
      (some H, mask, countTrue mask)
    | none => (bestH, bestMask, bestInliers)
  else (bestH, bestMask, bestInliers)

/-! # Minimal 4-point DLT solve (ransac.cpp:111-169)

`RANSAC::computeHomographyDLT` builds the 8x9 coefficient matrix A from
the 4 correspondences (ransac.cpp:117-144), runs `cv::SVD::compute`
(abstracted as the parameter `svd`, which returns row 8 of vt, or none
when vt does not have 9 columns, the check at ransac.cpp:150), reshapes
that row into a 3x3 matrix H, and then checks the variable `det`
declared at ransac.cpp:160 — which is the entry H(2,2), not the
determinant — against 1e-10 before dividing H by it. -/

/-- The two DLT rows contributed by one correspondence,
ransac.cpp:125-143. -/
def dltRowPair (p q : Pt) : List (List ℚ) :=
  [[p.1, p.2, 1, 0, 0, 0, -q.1 * p.1, -q.1 * p.2, -q.1],
   [0, 0, 0, p.1, p.2, 1, -q.2 * p.1, -q.2 * p.2, -q.2]]

/-- The 8x9 DLT coefficient matrix A, ransac.cpp:117-144. -/
def buildDLT (pts1 pts2 : List Pt) : List (List ℚ) :=
  ((pts1.zip pts2).map fun pq => dltRowPair pq.1 pq.2).flatten

/-- Reshape the last row of vt into a 3x3 matrix, ransac.cpp:157. -/
def mat3OfRow (v : Fin 9 → ℚ) : Mat3 :=
  ⟨v 0, v 1, v 2, v 3, v 4, v 5, v 6, v 7, v 8⟩

/-- RANSAC::computeHomographyDLT (ransac.cpp:111-169). -/
def computeHomographyDLT (svd : List (List ℚ) → Option (Fin 9 → ℚ))
    (pts1 pts2 : List Pt) : Option Mat3 :=
  if pts1.length = 4 ∧ pts2.length = 4 then
    match svd (buildDLT pts1 pts2) with
    | none => none
    | some v =>
      if |v 8| < homographyEpsilon then none
      else some (Mat3.smul (1 / v 8) (mat3OfRow v))
  else none

/-! # findHomography entry (ransac.cpp:12-23, ransac.h:8-16)

`RANSACResult` (ransac.h:8-16) has no default member initializers and
no constructor, and `RANSAC::findHomography` declares
`RANSACResult result;` (ransac.cpp:19), which default-initializes the
cv::Mat and the vector but leaves every scalar member indeterminate.
The result returned by the early exit at ransac.cpp:21-23 therefore
carries whatever values those scalars happened to hold; the embedding
makes this explicit by threading the indeterminate scalars through a
`ScalarJunk` record.  (Contrast homography_estimator.cpp:24, which
value-initializes with `RANSACResult{}` and so does zero its scalars.)
The whole sampling loop and everything after it (ransac.cpp:25-108) is
abstracted as the parameter `loopRest`, which the entry guard never
invokes. -/

/-- The indeterminate values held by the scalar members of a
default-initialized RANSACResult. -/
structure ScalarJunk where
  numInliers : ℤ
  inlierFrac : ℚ
  numIterations : ℤ
  reprojError : ℝ

/-- RANSACResult (ransac.h:8-16).  Field names follow the C++ ones;
`inlierFrac` stands for the source's inlier-ratio member, and the
wall-clock computation_time_ms member is not modelled. -/
structure RANSACResult where
  homography : Option Mat3
  inlier_mask : List Bool
  num_inliers : ℤ
  inlierFrac : ℚ
  num_iterations : ℤ
  reprojection_error : ℝ

/-- The default-constructed result returned at ransac.cpp:22: empty
matrix, empty mask, indeterminate scalars. -/
def defaultResult (junk : ScalarJunk) : RANSACResult :=
  { homography := none
    inlier_mask := []
    num_inliers := junk.numInliers
    inlierFrac := junk.inlierFrac
    num_iterations := junk.numIterations
    reprojection_error := junk.reprojError }

/-- RANSAC::findHomography's entry guard (ransac.cpp:19-23): fewer than
4 points or a length mismatch returns the default-constructed result
before anything else runs; `loopRest` abstracts ransac.cpp:25-108. -/
def findHomography (loopRest : Unit → RANSACResult)
    (points1 points2 : List Pt) (junk : ScalarJunk) : RANSACResult :=
  if points1.length < 4 ∨ points1.length ≠ points2.length then
    defaultResult junk
  else loopRest ()

/-! # Adaptive iteration budget (ransac.cpp:25-78)

findHomography receives the iteration cap as the parameter
`max_iterations` and copies it once into the member `max_iterations_`
(ransac.cpp:29).  The sampling loop's condition reads only the member
(`while (iterations < max_iterations_)`, ransac.cpp:44), and the
member is never reassigned afterwards.  On every improvement of the
best inlier count the code recomputes w = best_inliers / n_points and,
when 0 < w < 1, executes
`max_iterations = std::min(static_cast<int>(new_iterations) + 1,
max_iterations_)` (ransac.cpp:74) with
`new_iterations = std::log(1 - p) / std::log(1 - std::pow(w, 4))`
(ransac.cpp:73).  That assignment writes the local parameter
`max_iterations`, which no later code reads: the bound governing the
loop is unchanged, so the adaptive early-termination update never
takes effect.  The embedding carries both variables explicitly; note
also that the double-to-int cast truncates toward zero (it is not a
ceiling). -/

/-- The quantity `new_iterations` of ransac.cpp:73. -/
noncomputable def newIterations (p w : ℝ) : ℝ :=
  Real.log (1 - p) / Real.log (1 - w ^ 4)

/-- static_cast<int> of a double: truncation toward zero. -/
noncomputable def truncInt (x : ℝ) : ℤ :=
  if 0 ≤ x then ⌊x⌋ else ⌈x⌉

/-- The two iteration-cap variables of ransac.cpp:25-78: the local
parameter `max_iterations` (written by the update at line 74, read by
nothing after line 29) and the member `max_iterations_` (set once at
line 29, read by the loop condition at line 44 and by the min at
line 74, never reassigned). -/
structure IterBudget where
  maxIterationsLocal : ℤ
  maxIterationsMember : ℤ
deriving DecidableEq, Repr

/-- The bound the sampling loop actually compares against:
`iterations < max_iterations_` at ransac.cpp:44 reads the member. -/
def loopBound (b : IterBudget) : ℤ := b.maxIterationsMember

/-- The improvement-branch update of ransac.cpp:71-75: when 0 < w < 1,
min(trunc(new_iterations) + 1, max_iterations_) is assigned to the
local `max_iterations` — a store that nothing afterwards reads — while
the member, and with it the loop bound, stays untouched; otherwise
nothing changes at all. -/
noncomputable def updateBudget (p w : ℝ) (b : IterBudget) : IterBudget :=
  if 0 < w ∧ w < 1 then
    { b with maxIterationsLocal := min (truncInt (newIterations p w) + 1) b.maxIterationsMember }
  else b

/-! # Pipeline geometry validation (stitching_pipeline.cpp:229-278)

After homography estimation, `StitchingPipeline::performStitchingDirect`
runs, in order: the empty-matrix check (line 229), the NaN/Inf entry
scan (lines 234-242, vacuous in exact arithmetic where every entry is a
finite rational), the determinant-range check (lines 244-252), the
H(2,2) near-zero check before normalization (lines 254-260), the
per-axis scale check on the H(2,2)-normalized matrix (lines 262-272)
and the minimum-inlier-count check (lines 274-278).  Only if all of
them pass does control reach the warp and blend code, abstracted here
as the parameter `comp`; every failing check returns the empty matrix
(modelled as `none`) at once.  The C++ compares scale_x =
sqrt(h00*h00 + h10*h10) with the bounds 0.1 and 10; the embedding
compares the sum of squares with the squared bounds, which is
equivalent because both sides are nonnegative. -/

/-- PanoramaConfig::MIN_HOMOGRAPHY_DETERMINANT (config.h:36). -/
def minHomographyDet : ℚ := 1 / 1000

/-- PanoramaConfig::MAX_HOMOGRAPHY_DETERMINANT (config.h:37). -/
def maxHomographyDet : ℚ := 1000

/-- Square of PanoramaConfig::MIN_HOMOGRAPHY_SCALE = 0.1 (config.h:38). -/
def minHomographyScaleSq : ℚ := 1 / 100

/-- Square of PanoramaConfig::MAX_HOMOGRAPHY_SCALE = 10 (config.h:39). -/
def maxHomographyScaleSq : ℚ := 100

/-- PanoramaConfig::MIN_INLIERS_REQUIRED (config.h:27). -/
def minInliersRequired : ℤ := 20

/-- scale_x squared: h00*h00 + h10*h10 (stitching_pipeline.cpp:262). -/
def sqScaleX (H : Mat3) : ℚ := H.h00 * H.h00 + H.h10 * H.h10

/-- scale_y squared: h01*h01 + h11*h11 (stitching_pipeline.cpp:264). -/
def sqScaleY (H : Mat3) : ℚ := H.h01 * H.h01 + H.h11 * H.h11

/-- The validation gate of stitching_pipeline.cpp:229-278, with `comp`
abstracting the warp+blend tail (stitching_pipeline.cpp:303-405). -/
def geometryGate {α : Type} (H? : Option Mat3) (nInliers : ℤ)
    (comp : Mat3 → Option α) : Option α :=
  match H? with
  | none => none
  | some H =>
    if |H.det| < minHomographyDet ∨ maxHomographyDet < |H.det| then none
    else if |H.h22| < homographyEpsilon then none
    else
      let N := Mat3.smul (1 / H.h22) H
      if sqScaleX N < minHomographyScaleSq ∨ maxHomographyScaleSq < sqScaleX N ∨
         sqScaleY N < minHomographyScaleSq ∨ maxHomographyScaleSq < sqScaleY N then none
      else if nInliers < minInliersRequired then none
      else comp H

/-- The conjunction of the validator checks, written as the
specification lists them (finiteness of the entries is automatic for
rationals): determinant range, H(2,2) away from zero, axis scales of
the normalized matrix in range, and enough inliers. -/
def validatorPasses (H : Mat3) (nInliers : ℤ) : Prop :=
  (minHomographyDet ≤ |H.det| ∧ |H.det| ≤ maxHomographyDet) ∧
  homographyEpsilon ≤ |H.h22| ∧
  (minHomographyScaleSq ≤ sqScaleX (Mat3.smul (1 / H.h22) H) ∧
   sqScaleX (Mat3.smul (1 / H.h22) H) ≤ maxHomographyScaleSq ∧
   minHomographyScaleSq ≤ sqScaleY (Mat3.smul (1 / H.h22) H) ∧
   sqScaleY (Mat3.smul (1 / H.h22) H) ≤ maxHomographyScaleSq) ∧
  minInliersRequired ≤ nInliers

instance (H : Mat3) (n : ℤ) : Decidable (validatorPasses H n) := by
  unfold validatorPasses; infer_instance

/-! # Warp-step canvas checks (stitching_pipeline.cpp:314-373)

The pipeline maps image 2's corners through H⁻¹ (cv::perspectiveTransform,
whose output list is taken here as the input `corners`), folds min/max
against the extent of image 1 (lines 323-331), forms the padded canvas
size (lines 338-341, PanoramaConfig::PANORAMA_PADDING = 10 on each
side), and then checks, in order and before any allocation: positivity
(line 343), the per-side hard maximum (line 348), and the estimated
memory width*height*3*2 against PanoramaConfig::MAX_PANORAMA_MEMORY
(lines 362-369).  Only then are the canvas and masks allocated
(lines 371-373), abstracted as the parameter `alloc`.  The
double-to-int cast on the nonnegative extent truncates, i.e. floors. -/

/-- PanoramaConfig::MAX_PANORAMA_MEMORY = 2 GiB (config.h:33). -/
def maxPanoramaMemory : ℤ := 2147483648

/-- The padded canvas size of stitching_pipeline.cpp:323-341, from the
dimensions of image 1 and the transformed corners of image 2. -/
def canvasSize (w1 h1 : ℕ) (corners : List Pt) : ℤ × ℤ :=
  let minx := corners.foldl (fun a c => min a c.1) 0
  let maxx := corners.foldl (fun a c => max a c.1) (w1 : ℚ)
  let miny := corners.foldl (fun a c => min a c.2) 0
  let maxy := corners.foldl (fun a c => max a c.2) (h1 : ℚ)
  (⌊maxx - minx⌋ + 20, ⌊maxy - miny⌋ + 20)

/-- The pre-allocation checks of stitching_pipeline.cpp:343-369
followed by the allocation itself (`alloc`, lines 371 onward). -/
def warpStage {α : Type} (w1 h1 : ℕ) (corners : List Pt) (maxDim : ℤ)
    (alloc : ℤ → ℤ → Option α) : Option α :=
  let s := canvasSize w1 h1 corners
  if s.1 ≤ 0 ∨ s.2 ≤ 0 then none
  else if maxDim < s.1 ∨ maxDim < s.2 then none
  else if maxPanoramaMemory < s.1 * s.2 * 3 * 2 then none
  else alloc s.1 s.2

/-! # Binary overlay blend (blender.cpp:22-35)

`Blender::simpleOverlay` checks that the two images agree in size and
type (line 24), clones image 1 (line 29) and runs
`img2.copyTo(result, mask2)` (line 32).  cv::Mat::copyTo with a mask
copies, pixel by pixel, the source value wherever the mask is nonzero
and leaves the destination value elsewhere; that per-pixel semantics is
the definition of `copyToMasked` below.  An image is modelled as its
pixel plane (a total function; the stored extent and the cv type tag
ride along as data so the line-24 check can be expressed). -/

/-- An image: a cv type tag, an extent, and a pixel plane. -/
structure CImg where
  ty : ℕ
  w : ℕ
  h : ℕ
  px : ℕ → ℕ → ℚ

/-- cv::Mat::clone (blender.cpp:29). -/
def CImg.clone (i : CImg) : CImg := i

/-- cv::Mat::copyTo(dst, mask): src wherever mask is nonzero, dst
elsewhere (blender.cpp:32). -/
def copyToMasked (dst src mask : CImg) : CImg :=
  { dst with px := fun x y => if mask.px x y ≠ 0 then src.px x y else dst.px x y }

/-- Blender::simpleOverlay (blender.cpp:22-35); mask1 is unused in the
source ([[maybe_unused]]). -/
def simpleOverlay (img1 img2 mask1 mask2 : CImg) : Option CImg :=
  if img1.w = img2.w ∧ img1.h = img2.h ∧ img1.ty = img2.ty then
    some (copyToMasked img1.clone img2 mask2)
  else none

/-- Pixel lookup through the optional result of a blend. -/
def getPx (r : Option CImg) (x y : ℕ) : Option ℚ :=
  r.map fun o => o.px x y

/-! # Multi-band blend (blender.cpp:94-212)

The pyramid algebra is modelled on bare pixel planes (ℕ → ℕ → ℚ with
pointwise arithmetic); `cv::pyrDown` and `cv::pyrUp` are abstracted as
the parameters `down` and `up` (the explicit output size passed to
cv::pyrUp and the per-level extents are metadata not needed by the
algebraic claims).  The 8-bit-to-float conversions at blender.cpp:181
and the final saturating conversion back at blender.cpp:209 are exact
on the integer-valued images the claims speak about and are not
modelled.  The 1 GiB guard at blender.cpp:114-120 only lowers the
`num_bands` argument before the pyramids are built, and the size/type
check at blender.cpp:108 is vacuous for the identical-image claims, so
`num_bands` enters as the already-adjusted parameter. -/

/-- A pixel plane with exact values. -/
abbrev Plane : Type := ℕ → ℕ → ℚ

/-- Blender::createGaussianPyramid (blender.cpp:160-174): level 0 is
the input, each further level is one more `down`. -/
def createGaussianPyramid (down : Plane → Plane) : Plane → ℕ → List Plane
  | img, 0 => [img]
  | img, 1 => [img]
  | img, n + 2 => img :: createGaussianPyramid down (down img) (n + 1)

/-- Blender::createLaplacianPyramid (blender.cpp:176-197): each level
but the last is the residual current − up(down(current)); the last is
the fully downsampled image. -/
def createLaplacianPyramid (down up : Plane → Plane) : Plane → ℕ → List Plane
  | img, 0 => [img]
  | img, 1 => [img]
  | img, n + 2 =>
    (img - up (down img)) :: createLaplacianPyramid down up (down img) (n + 1)

/-- Blender::reconstructFromPyramid (blender.cpp:199-212): start from
the coarsest level and repeatedly upsample and add the next finer
level.  The C++ takes pyramid.back() of a nonempty vector; the empty
case is unreachable for the pyramids built above. -/
def reconstructFromPyramid (up : Plane → Plane) : List Plane → Plane
  | [] => 0
  | [l] => l
  | l :: l' :: ls => up (reconstructFromPyramid up (l' :: ls)) + l

/-- One level of the blend loop (blender.cpp:130-155): scale both mask
levels by 1/255, normalize them to sum to 1 with the zero-sum guard
(`mask_sum += (mask_sum == 0)`, where the cv comparison writes 255 at
pixels with zero sum), and form the weighted sum of the two image
levels. -/
def blendLevel (p1 p2 mk1 mk2 : Plane) : Plane :=
  fun x y =>
    let a := mk1 x y / 255
    let b := mk2 x y / 255
    let s := a + b
    let s' := if s = 0 then s + 255 else s
    p1 x y * (a / s') + p2 x y * (b / s')

/-- The blend loop over the pyramid levels (blender.cpp:130-155).  The
C++ indexes all four pyramids by i < num_bands and all four have
exactly num_bands levels; the simultaneous recursion is the same
traversal. -/
def blendLevels : List Plane → List Plane → List Plane → List Plane → List Plane
  | p1 :: r1, p2 :: r2, m1 :: s1, m2 :: s2 =>
    blendLevel p1 p2 m1 m2 :: blendLevels r1 r2 s1 s2
  | _, _, _, _ => []

/-- Blender::multibandBlend (blender.cpp:94-158). -/
def multibandBlend (down up : Plane → Plane)
    (img1 img2 mask1 mask2 : Plane) (num_bands : ℕ) : Plane :=
  reconstructFromPyramid up
    (blendLevels
      (createLaplacianPyramid down up img1 num_bands)
      (createLaplacianPyramid down up img2 num_bands)
      (createGaussianPyramid down mask1 num_bands)
      (createGaussianPyramid down mask2 num_bands))

/-! # Concrete instances used by the example theorems -/

/-- A near-zero scalar multiple of the identity: maps (x, y, 1) to
(x/10^12, y/10^12, 1/10^12), so every homogeneous denominator is
below 1e-10 while the projected point is exact. -/
def tinyH : Mat3 := ⟨1/10^12, 0, 0, 0, 1/10^12, 0, 0, 0, 1/10^12⟩

/-- Translation by (100, 100). -/
def shiftH100 : Mat3 := ⟨1, 0, 100, 0, 1, 100, 0, 0, 1⟩

/-- Four corners of a 10x10 square. -/
def sq4 : List Pt := [(0, 0), (10, 0), (0, 10), (10, 10)]

/-- Three points: one fewer than the minimal sample. -/
def tri3 : List Pt := [(0, 0), (1, 0), (0, 1)]

/-- Four corners of the unit square. -/
def quad4 : List Pt := [(0, 0), (1, 0), (0, 1), (1, 1)]

/-- A vt row whose 3x3 reshape has determinant 0 but entry (2,2) = 1. -/
def degRow : Fin 9 → ℚ := fun i => if i = 0 ∨ i = 8 then 1 else 0

/-- The reshape of `degRow`. -/
def degH : Mat3 := ⟨1, 0, 0, 0, 0, 0, 0, 0, 1⟩

/-- A stub for the abstracted RANSAC loop, returning a recognizable
non-default result. -/
def loopStub : Unit → RANSACResult :=
  fun _ => { homography := some idMat3, inlier_mask := [true],
             num_inliers := 1, inlierFrac := 1, num_iterations := 1,
             reprojection_error := 0 }

/-- A confidence value chosen so that new_iterations evaluates to
exactly 3/2 at w = 1/2: 1 - pZero = (15/16)^(3/2) and
1 - (1/2)^4 = 15/16. -/
noncomputable def pZero : ℝ := 1 - (15/16 : ℝ) ^ ((3 : ℝ)/2)

/-- An all-black 4x2 8UC3 image (type tag 16 = CV_8UC3). -/
def blackImg : CImg := ⟨16, 4, 2, fun _ _ => 0⟩

/-- An all-white 4x2 8UC3 image. -/
def whiteImg : CImg := ⟨16, 4, 2, fun _ _ => 255⟩

/-- A mask covering exactly the right half of a 4-wide image. -/
def maskRightHalf : CImg := ⟨0, 4, 2, fun x _ => if 2 ≤ x then 255 else 0⟩

/-- An all-zero mask image. -/
def maskZeroImg : CImg := ⟨0, 4, 2, fun _ _ => 0⟩

/-- The constant plane 7. -/
def plane7 : Plane := fun _ _ => 7

/-- The constant plane 255 (a fully set 8-bit mask). -/
def plane255 : Plane := fun _ _ => 255

/-- The constant plane 0 (an empty mask). -/
def plane0 : Plane := fun _ _ => 0

/-! # Claim theorems -/

/-- C1 counterexample: a refinement fit that returns a translated model
turns a best state with 4 inliers into a returned state with 0 inliers;
there is no fallback to the pre-refinement model.  The fit parameter
stands for cv::findHomography(inlier points, 0), whose output the
repository accepts unconditionally whenever it is nonempty
(ransac.cpp:91-95). -/
theorem refinePass_drops_below_four :
    countTrue [true, true, true, true] = 4 ∧
    (refinePass (fun _ _ => some shiftH100) sq4 sq4 3
        (some idMat3) [true, true, true, true] 4).2.2 = 0 := by
  refine ⟨by decide, ?_⟩
  norm_num [refinePass, sq4, shiftH100, findInliers, inlierTest, errSq,
    Mat3.apply, countTrue]

/-- C1 (amended): after the loop, if the best model has at least 4
inliers and the least-squares fit over the inlier correspondences
returns a model, that refined model is kept unconditionally and the
inlier mask and count are recomputed against it; the pre-refinement
model is restored only when the fit returns no model, so the returned
inlier count can drop below 4. -/
theorem refinePass_accepts_fit (fit : List Pt → List Pt → Option Mat3)
    (points1 points2 : List Pt) (threshold : ℚ)
    (bestH : Option Mat3) (bestMask : List Bool) (bestInliers : ℕ) (H : Mat3)
    (h4 : 4 ≤ bestInliers)
    (hfit : fit (selectMasked points1 bestMask) (selectMasked points2 bestMask)
      = some H) :
    refinePass fit points1 points2 threshold bestH bestMask bestInliers =
      (some H, findInliers H points1 points2 threshold,
        countTrue (findInliers H points1 points2 threshold)) := by
  simp [refinePass, h4, hfit]

/-- C1 witness: the amended acceptance behaviour at a concrete input. -/
theorem refinePass_accepts_fit_witness :
    4 ≤ 4 ∧
    refinePass (fun _ _ => some shiftH100) sq4 sq4 3
        (some idMat3) [true, true, true, true] 4 =
      (some shiftH100, findInliers shiftH100 sq4 sq4 3,
        countTrue (findInliers shiftH100 sq4 sq4 3)) :=
  ⟨by decide,
   refinePass_accepts_fit (fun _ _ => some shiftH100) sq4 sq4 3
     (some idMat3) [true, true, true, true] 4 shiftH100 (by decide) rfl⟩

/-- C2 counterexample: with an SVD outcome whose last vt row reshapes
to a matrix with determinant 0 but entry (2,2) = 1, computeHomographyDLT
accepts and returns the candidate, although its determinant is far
below the epsilon: the degeneracy check at ransac.cpp:160-164 reads
H(2,2), not the determinant. -/
theorem computeHomographyDLT_accepts_zero_det :
    computeHomographyDLT (fun _ => some degRow) quad4 quad4 = some degH ∧
    |Mat3.det degH| < homographyEpsilon := by
  constructor
  · norm_num [computeHomographyDLT, quad4, degRow, degH, homographyEpsilon,
      Mat3.smul, mat3OfRow]
    decide
  · norm_num [Mat3.det, degH, homographyEpsilon]

/-- C2 (amended): given two lists of 4 points, a candidate is rejected
exactly when the SVD call fails (vt without 9 columns) or the
pre-normalization entry H(2,2) — the bottom-right entry of the reshaped
vt row — has absolute value below 1e-10; any returned candidate has
been divided by that entry and so has H(2,2) = 1, with no constraint on
its determinant. -/
theorem computeHomographyDLT_reject_iff
    (svd : List (List ℚ) → Option (Fin 9 → ℚ)) (pts1 pts2 : List Pt)
    (h1 : pts1.length = 4) (h2 : pts2.length = 4) :
    (computeHomographyDLT svd pts1 pts2 = none ↔
      svd (buildDLT pts1 pts2) = none ∨
      ∃ v, svd (buildDLT pts1 pts2) = some v ∧ |v 8| < homographyEpsilon) ∧
    ∀ H, computeHomographyDLT svd pts1 pts2 = some H → H.h22 = 1 := by
  have hpos : (0 : ℚ) < homographyEpsilon := by norm_num [homographyEpsilon]
  unfold computeHomographyDLT
  rw [if_pos ⟨h1, h2⟩]
  cases hsvd : svd (buildDLT pts1 pts2) with
  | none => simp
  | some v =>
    by_cases hv : |v 8| < homographyEpsilon
    · simp [hv]
    · have hvz : v 8 ≠ 0 := fun h0 => hv (by rw [h0, abs_zero]; exact hpos)
      simp [hv, Mat3.smul, mat3OfRow]
      exact inv_mul_cancel₀ hvz

/-- C3 counterexample: under a homography whose homogeneous denominator
at (1,2) is 10^(-12) < 1e-10, the correspondence ((1,2), (1,2)) is
marked an inlier by RANSAC::findInliers (no failed-projection
treatment) and it is counted into the mean reprojection error rather
than excluded. -/
theorem findInliers_no_denominator_guard :
    |(Mat3.apply tinyH (1, 2)).2.2| < homographyEpsilon ∧
    findInliers tinyH [(1, 2)] [(1, 2)] 3 = [true] ∧
    computeReprojectionError (some tinyH) [(1, 2)] [(1, 2)] [true] = 0 := by
  refine ⟨?_, ?_, ?_⟩
  · rw [show (Mat3.apply tinyH (1, 2)).2.2 = 1/10^12 by norm_num [tinyH, Mat3.apply]]
    rw [abs_of_pos (by norm_num)]
    norm_num [homographyEpsilon]
  · norm_num [findInliers, inlierTest, tinyH, Mat3.apply, errSq]
  · have h0 : errSq tinyH (1, 2) (1, 2) = 0 := by norm_num [errSq, tinyH, Mat3.apply]
    simp [computeReprojectionError, reprojErrorR, h0]

/-- C3 (amended): for a correspondence whose homogeneous denominator is
nonzero, RANSAC::findInliers classifies purely by the reprojection-error
test — inlier iff the threshold is positive and the squared error is
below its square — with no special treatment of denominators smaller
than 1e-10 (the quoted epsilon guard exists only in
HomographyEstimator's own error computation,
homography_estimator.cpp:93-96, not in ransac.cpp). -/
theorem inlierTest_iff_error_below (H : Mat3) (p q : Pt) (t : ℚ)
    (hz : (Mat3.apply H p).2.2 ≠ 0) :
    inlierTest H p q t = true ↔ 0 < t ∧ errSq H p q < t * t := by
  simp [inlierTest, hz]

/-- C3 witness: the characterization applied where the denominator is
below the epsilon, confirming the point is still an inlier. -/
theorem inlierTest_iff_error_below_witness :
    (Mat3.apply tinyH (1, 2)).2.2 ≠ 0 ∧ inlierTest tinyH (1, 2) (1, 2) 3 = true :=
  ⟨by norm_num [tinyH, Mat3.apply],
   (inlierTest_iff_error_below tinyH (1, 2) (1, 2) 3
      (by norm_num [tinyH, Mat3.apply])).2
     (by norm_num [errSq, tinyH, Mat3.apply])⟩

/-- C4: with three correspondences the entry guard (ransac.cpp:21-23)
returns the default-constructed RANSACResult: the homography is empty,
but the scalar members are the indeterminate values of the
uninitialized struct (modelled explicitly; here num_inliers carries the
arbitrary value 7 rather than the zero the specification promises). -/
theorem findHomography_three_points_junk :
    (findHomography loopStub tri3 tri3 ⟨7, 0, 0, 0⟩).homography = none ∧
    (findHomography loopStub tri3 tri3 ⟨7, 0, 0, 0⟩).num_inliers = 7 := by
  constructor
  · rfl
  · decide

/-- C10: when the two point lists differ in length — even with at least
4 points in the first — findHomography returns the default-constructed
early-exit result (in particular an empty homography), independently of
everything after the guard: no sampling is attempted. -/
theorem findHomography_length_mismatch (loopRest : Unit → RANSACResult)
    (points1 points2 : List Pt) (junk : ScalarJunk)
    (h4 : 4 ≤ points1.length) (hne : points1.length ≠ points2.length) :
    findHomography loopRest points1 points2 junk = defaultResult junk ∧
    (findHomography loopRest points1 points2 junk).homography = none := by
  have hcond : points1.length < 4 ∨ points1.length ≠ points2.length := Or.inr hne
  refine ⟨?_, ?_⟩ <;> simp [findHomography, hcond, defaultResult]

/-- C10 witness: a 4-point first list against a 3-point second list. -/
theorem findHomography_length_mismatch_witness :
    findHomography loopStub quad4 tri3 ⟨9, 9, 9, 9⟩ = defaultResult ⟨9, 9, 9, 9⟩ ∧
    (findHomography loopStub quad4 tri3 ⟨9, 9, 9, 9⟩).homography = none :=
  ⟨(findHomography_length_mismatch loopStub quad4 tri3 ⟨9, 9, 9, 9⟩
      (by decide) (by decide)).1,
   (findHomography_length_mismatch loopStub quad4 tri3 ⟨9, 9, 9, 9⟩
      (by decide) (by decide)).2⟩

/-- Helper: the exact value of new_iterations at confidence pZero and
inlier ratio one half. -/
theorem newIterations_pZero : newIterations pZero (1/2) = 3/2 := by
  have h15 : (0 : ℝ) < 15/16 := by norm_num
  have hne : Real.log (15/16 : ℝ) ≠ 0 := by
    intro h0
    rcases Real.log_eq_zero.1 h0 with h | h | h <;> norm_num at h
  have e1 : (1 : ℝ) - pZero = (15/16 : ℝ) ^ ((3 : ℝ)/2) := by
    unfold pZero; ring
  have e2 : (1 : ℝ) - (1/2 : ℝ) ^ 4 = 15/16 := by norm_num
  unfold newIterations
  rw [e1, e2, Real.log_rpow h15]
  rw [mul_div_assoc, div_self hne, mul_one]

/-- C5 counterexample: at confidence pZero and inlier ratio 1/2 the
ratio log(1-c)/log(1-w^4) equals exactly 3/2, yet after the update the
bound read by the loop condition is still the full original cap 2000 —
the assignment at ransac.cpp:74 writes the local parameter, which
nothing reads afterwards, so the remaining budget is not shrunk at
all — and even the value written to that dead local is 2 (truncation
plus one), not the quoted ceil(ratio) + 1 = 3. -/
theorem updateBudget_not_ceil :
    loopBound (updateBudget pZero (1/2) ⟨2000, 2000⟩) = 2000 ∧
    (updateBudget pZero (1/2) ⟨2000, 2000⟩).maxIterationsLocal = 2 ∧
    min (2000 : ℤ) (⌈newIterations pZero (1/2)⌉ + 1) = 3 := by
  refine ⟨?_, ?_, ?_⟩
  · unfold loopBound updateBudget
    rw [if_pos (by norm_num)]
  · unfold updateBudget
    rw [if_pos (by norm_num)]
    show min (truncInt (newIterations pZero (1/2)) + 1) 2000 = 2
    rw [newIterations_pZero]
    unfold truncInt
    rw [if_pos (by norm_num)]
    norm_num
  · rw [newIterations_pZero]
    rw [show ⌈(3 : ℝ)/2⌉ = 2 by rw [Int.ceil_eq_iff] <;> norm_num]
    norm_num

/-- C5 (amended): after an improvement with 0 < w < 1, the code
computes min(trunc(log(1−c)/log(1−w⁴)) + 1, original cap) — integer
truncation toward zero, not a ceiling — and assigns it to the local
parameter max_iterations only; the member max_iterations_ read by the
loop condition is never reassigned, so the bound governing the loop is
unchanged by every update, the remaining iteration budget is never
shrunk, and adaptive early termination never takes effect; when w ≤ 0
or w ≥ 1 even that dead assignment is skipped. -/
theorem updateBudget_formula (p w : ℝ) (b : IterBudget) :
    loopBound (updateBudget p w b) = loopBound b ∧
    (0 < w → w < 1 →
      (updateBudget p w b).maxIterationsLocal =
        min (truncInt (newIterations p w) + 1) b.maxIterationsMember) ∧
    ((w ≤ 0 ∨ 1 ≤ w) → updateBudget p w b = b) := by
  refine ⟨?_, ?_, ?_⟩
  · unfold loopBound updateBudget
    split_ifs <;> rfl
  · intro h1 h2
    unfold updateBudget
    rw [if_pos ⟨h1, h2⟩]
  · intro h
    unfold updateBudget
    rw [if_neg (by rintro ⟨hw1, hw2⟩; rcases h with h | h <;> linarith)]

/-- C5 witness: the update at pZero with w = 1/2 leaves the loop bound
unchanged while writing the dead local, and the skip branch at
w = 2. -/
theorem updateBudget_formula_witness :
    loopBound (updateBudget pZero (1/2) ⟨2000, 2000⟩) =
      loopBound ⟨2000, 2000⟩ ∧
    (updateBudget pZero (1/2) ⟨2000, 2000⟩).maxIterationsLocal =
      min (truncInt (newIterations pZero (1/2)) + 1) 2000 ∧
    updateBudget pZero 2 ⟨2000, 1234⟩ = ⟨2000, 1234⟩ :=
  ⟨(updateBudget_formula pZero (1/2) ⟨2000, 2000⟩).1,
   (updateBudget_formula pZero (1/2) ⟨2000, 2000⟩).2.1 (by norm_num) (by norm_num),
   (updateBudget_formula pZero 2 ⟨2000, 1234⟩).2.2 (Or.inr (by norm_num))⟩

/-- C6: the pipeline reaches the warp-and-composite tail `comp` and
produces an output exactly when the estimated homography is present and
passes every validator check — determinant magnitude within
[0.001, 1000], |H(2,2)| at least 1e-10 before normalization, both axis
scales of the H(2,2)-normalized matrix within [0.1, 10] (stated on
squares), and at least 20 inliers; when any check fails the stitch
yields the failure value `none` without consulting `comp`. -/
theorem geometryGate_some_iff {α : Type} (H? : Option Mat3) (nInliers : ℤ)
    (comp : Mat3 → Option α) (r : α) :
    geometryGate H? nInliers comp = some r ↔
      ∃ H, H? = some H ∧ validatorPasses H nInliers ∧ comp H = some r := by
  cases H? with
  | none => simp [geometryGate]
  | some H =>
    simp only [geometryGate]
    constructor
    · intro hg
      split_ifs at hg with hc1 hc2 hc3 hc4
      push_neg at hc1 hc3
      exact ⟨H, rfl,
        ⟨⟨hc1.1, hc1.2⟩, not_lt.1 hc2,
         ⟨hc3.1, hc3.2.1, hc3.2.2.1, hc3.2.2.2⟩, not_lt.1 hc4⟩, hg⟩
    · rintro ⟨H', hH', hval, hcomp⟩
      obtain rfl : H = H' := Option.some.inj hH'
      have c1 : ¬(|H.det| < minHomographyDet ∨ maxHomographyDet < |H.det|) := by
        push_neg; exact ⟨hval.1.1, hval.1.2⟩
      have c2 : ¬(|H.h22| < homographyEpsilon) := not_lt.2 hval.2.1
      have c3 : ¬(sqScaleX (Mat3.smul (1 / H.h22) H) < minHomographyScaleSq ∨
          maxHomographyScaleSq < sqScaleX (Mat3.smul (1 / H.h22) H) ∨
          sqScaleY (Mat3.smul (1 / H.h22) H) < minHomographyScaleSq ∨
          maxHomographyScaleSq < sqScaleY (Mat3.smul (1 / H.h22) H)) := by
        push_neg
        exact ⟨hval.2.2.1.1, hval.2.2.1.2.1, hval.2.2.1.2.2.1, hval.2.2.1.2.2.2⟩
      have c4 : ¬(nInliers < minInliersRequired) := not_lt.2 hval.2.2.2
      rw [if_neg c1, if_neg c2]
      show (if _ then none else if _ then none else comp H) = some r
      rw [if_neg c3, if_neg c4]
      exact hcomp

/-- C7: the warp stage allocates a canvas (consults `alloc`) and can
produce an output only when the padded canvas dimensions are positive,
within the per-side maximum, and within the 2 GiB estimated-memory
budget; for any input whose computed canvas exceeds either limit the
stage returns the failure value `none` and the allocator is never
consulted. -/
theorem warpStage_some_iff {α : Type} (w1 h1 : ℕ) (corners : List Pt)
    (maxDim : ℤ) (alloc : ℤ → ℤ → Option α) (r : α) :
    warpStage w1 h1 corners maxDim alloc = some r ↔
      0 < (canvasSize w1 h1 corners).1 ∧ 0 < (canvasSize w1 h1 corners).2 ∧
      (canvasSize w1 h1 corners).1 ≤ maxDim ∧
      (canvasSize w1 h1 corners).2 ≤ maxDim ∧
      (canvasSize w1 h1 corners).1 * (canvasSize w1 h1 corners).2 * 3 * 2 ≤
        maxPanoramaMemory ∧
      alloc (canvasSize w1 h1 corners).1 (canvasSize w1 h1 corners).2 = some r := by
  simp only [warpStage]
  split_ifs with hc1 hc2 hc3
  · constructor
    · intro hg; exact absurd hg (by simp)
    · rintro ⟨g1, g2, g3, g4, g5, g6⟩
      rcases hc1 with h | h
      · exact absurd g1 (not_lt.2 h)
      · exact absurd g2 (not_lt.2 h)
  · constructor
    · intro hg; exact absurd hg (by simp)
    · rintro ⟨g1, g2, g3, g4, g5, g6⟩
      rcases hc2 with h | h
      · exact absurd g3 (not_le.2 h)
      · exact absurd g4 (not_le.2 h)
  · constructor
    · intro hg; exact absurd hg (by simp)
    · rintro ⟨g1, g2, g3, g4, g5, g6⟩
      exact absurd g5 (not_le.2 hc3)
  · push_neg at hc1 hc2
    constructor
    · intro hg
      exact ⟨hc1.1, hc1.2, hc2.1, hc2.2, not_lt.1 hc3, hg⟩
    · rintro ⟨g1, g2, g3, g4, g5, g6⟩
      exact g6

/-- C8: when the two images agree in size and type, the binary-overlay
blend succeeds and each output pixel is image 2's pixel wherever
mask 2 is nonzero and image 1's pixel elsewhere. -/
theorem simpleOverlay_pixels (img1 img2 mask1 mask2 : CImg)
    (hw : img1.w = img2.w) (hh : img1.h = img2.h) (ht : img1.ty = img2.ty)
    (x y : ℕ) :
    getPx (simpleOverlay img1 img2 mask1 mask2) x y =
      some (if mask2.px x y ≠ 0 then img2.px x y else img1.px x y) := by
  simp [simpleOverlay, hw, hh, ht, getPx, copyToMasked, CImg.clone]

/-- C8 witness: image A all black, image B all white, B's mask covering
exactly the right half: the right half of the output equals B and the
left half equals A. -/
theorem simpleOverlay_pixels_witness :
    getPx (simpleOverlay blackImg whiteImg maskZeroImg maskRightHalf) 2 1 =
      some 255 ∧
    getPx (simpleOverlay blackImg whiteImg maskZeroImg maskRightHalf) 1 0 =
      some 0 := by
  constructor
  · rw [simpleOverlay_pixels blackImg whiteImg maskZeroImg maskRightHalf
      rfl rfl rfl 2 1]
    norm_num [maskRightHalf, whiteImg]
  · rw [simpleOverlay_pixels blackImg whiteImg maskZeroImg maskRightHalf
      rfl rfl rfl 1 0]
    norm_num [maskRightHalf, blackImg]

/-- Helper: the Laplacian pyramid is never empty. -/
theorem createLaplacianPyramid_ne_nil (down up : Plane → Plane)
    (img : Plane) (n : ℕ) :
    createLaplacianPyramid down up img n ≠ [] := by
  match n with
  | 0 => simp [createLaplacianPyramid]
  | 1 => simp [createLaplacianPyramid]
  | m + 2 => simp [createLaplacianPyramid]

/-- Helper: unfolding one reconstruction step over a nonempty tail. -/
theorem reconstructFromPyramid_cons (up : Plane → Plane) (l : Plane)
    (ls : List Plane) (h : ls ≠ []) :
    reconstructFromPyramid up (l :: ls) = up (reconstructFromPyramid up ls) + l := by
  cases ls with
  | nil => exact absurd rfl h
  | cons a as => rfl

/-- Helper: Laplacian decomposition followed by repeated
upsample-and-add is the identity, for every down/up pair. -/
theorem reconstruct_laplacian (down up : Plane → Plane) :
    ∀ n img, reconstructFromPyramid up (createLaplacianPyramid down up img n) = img := by
  intro n
  induction n using Nat.strong_induction_on with
  | _ n ih =>
    match n with
    | 0 => intro img; rfl
    | 1 => intro img; rfl
    | m + 2 =>
      intro img
      rw [createLaplacianPyramid]
      rw [reconstructFromPyramid_cons up _ _ (createLaplacianPyramid_ne_nil down up _ _)]
      rw [ih (m + 1) (by omega) (down img)]
      funext x y
      simp only [Pi.add_apply, Pi.sub_apply]
      ring

/-- Helper: depth of a Gaussian pyramid. -/
theorem length_createGaussianPyramid (down : Plane → Plane) :
    ∀ n img, (createGaussianPyramid down img n).length = max 1 n := by
  intro n
  induction n using Nat.strong_induction_on with
  | _ n ih =>
    match n with
    | 0 => intro img; rfl
    | 1 => intro img; rfl
    | m + 2 =>
      intro img
      rw [createGaussianPyramid]
      simp [ih (m + 1) (by omega) (down img)]

/-- Helper: depth of a Laplacian pyramid. -/
theorem length_createLaplacianPyramid (down up : Plane → Plane) :
    ∀ n img, (createLaplacianPyramid down up img n).length = max 1 n := by
  intro n
  induction n using Nat.strong_induction_on with
  | _ n ih =>
    match n with
    | 0 => intro img; rfl
    | 1 => intro img; rfl
    | m + 2 =>
      intro img
      rw [createLaplacianPyramid]
      simp [ih (m + 1) (by omega) (down img)]

/-- Helper: blending a level with itself is the identity wherever the
scaled mask weights have nonzero sum. -/
theorem blendLevel_self (X a b : Plane)
    (h : ∀ x y, a x y / 255 + b x y / 255 ≠ 0) :
    blendLevel X X a b = X := by
  funext x y
  have hs := h x y
  have hs' : a x y + b x y ≠ 0 := by
    intro h0
    exact hs (by rw [div_add_div_same, h0, zero_div])
  simp only [blendLevel]
  rw [if_neg hs]
  field_simp
  ring

/-- Helper: the level-wise blend of a pyramid with itself returns the
pyramid, given nonzero weight sums at every level and pixel. -/
theorem blendLevels_self :
    ∀ (ps m1s m2s : List Plane),
      ps.length = m1s.length → ps.length = m2s.length →
      (∀ q ∈ m1s.zip m2s, ∀ x y, q.1 x y / 255 + q.2 x y / 255 ≠ 0) →
      blendLevels ps ps m1s m2s = ps := by
  intro ps
  induction ps with
  | nil => intro m1s m2s _ _ _; rfl
  | cons p pr ih =>
    intro m1s m2s h1 h2 hz
    cases m1s with
    | nil => simp at h1
    | cons a ar =>
      cases m2s with
      | nil => simp at h2
      | cons b br =>
        rw [blendLevels]
        rw [blendLevel_self p a b (fun x y => hz (a, b) (by simp) x y)]
        rw [ih ar br (by simpa using h1) (by simpa using h2)
          (fun q hq => hz q (by simp; right; exact hq))]

/-- C9 (amended): multi-band blending two identical images reproduces
the image exactly, for every down/up sampler and every mask
configuration whose per-level scaled weight sums are nonzero at every
pixel; where both mask pyramids vanish at some pixel of some level the
zero-sum guard gives both sources weight zero there instead, so that
pixel of the level blends to 0 rather than to the source value. -/
theorem multibandBlend_identical (down up : Plane → Plane)
    (img mask1 mask2 : Plane) (num_bands : ℕ) (hb : 1 ≤ num_bands)
    (hz : ∀ q ∈ (createGaussianPyramid down mask1 num_bands).zip
        (createGaussianPyramid down mask2 num_bands),
      ∀ x y, q.1 x y / 255 + q.2 x y / 255 ≠ 0) :
    multibandBlend down up img img mask1 mask2 num_bands = img := by
  unfold multibandBlend
  rw [blendLevels_self _ _ _
    (by rw [length_createLaplacianPyramid, length_createGaussianPyramid])
    (by rw [length_createLaplacianPyramid, length_createGaussianPyramid]) hz]
  exact reconstruct_laplacian down up num_bands img

/-- Helper: reconstructing a pyramid of zero planes with the identity
upsampler gives the zero plane. -/
theorem reconstruct_zero (ls : List Plane) (h : ∀ l ∈ ls, l = (0 : Plane)) :
    reconstructFromPyramid id ls = 0 := by
  induction ls with
  | nil => rfl
  | cons a as ih =>
    cases as with
    | nil => simpa using h a (by simp)
    | cons b bs =>
      rw [reconstructFromPyramid_cons id a (b :: bs) (by simp)]
      rw [ih fun l hl => h l (List.mem_cons_of_mem a hl)]
      rw [h a (by simp)]
      simp

/-- Helper: with two all-zero mask levels the zero-sum guard leaves
both weights zero, so the blended level is the zero plane whatever the
image levels hold. -/
theorem blendLevel_zero_masks (p1 p2 : Plane) :
    blendLevel p1 p2 plane0 plane0 = (0 : Plane) := by
  funext x y
  simp [blendLevel, plane0]

/-- Helper: all levels blended under all-zero masks are zero planes. -/
theorem blendLevels_zero_masks :
    ∀ (ps1 ps2 ms1 ms2 : List Plane), (∀ m ∈ ms1, m = plane0) →
      (∀ m ∈ ms2, m = plane0) →
      ∀ l ∈ blendLevels ps1 ps2 ms1 ms2, l = (0 : Plane) := by
  intro ps1
  induction ps1 with
  | nil => intro ps2 ms1 ms2 _ _ l hl; simp [blendLevels] at hl
  | cons p pr ih =>
    intro ps2 ms1 ms2 h1 h2 l hl
    cases ps2 with
    | nil => simp [blendLevels] at hl
    | cons q qr =>
      cases ms1 with
      | nil => simp [blendLevels] at hl
      | cons a ar =>
        cases ms2 with
        | nil => simp [blendLevels] at hl
        | cons b br =>
          rw [blendLevels] at hl
          rcases List.mem_cons.1 hl with h | h
          · rw [h, h1 a (by simp), h2 b (by simp)]
            exact blendLevel_zero_masks p q
          · exact ih qr ar br (fun m hm => h1 m (List.mem_cons_of_mem a hm))
              (fun m hm => h2 m (List.mem_cons_of_mem b hm)) l h

/-- Helper: every level of a Gaussian pyramid of the zero mask under
the identity downsampler is the zero mask. -/
theorem gauss_all_zero : ∀ n, ∀ m ∈ createGaussianPyramid id plane0 n, m = plane0 := by
  intro n
  induction n using Nat.strong_induction_on with
  | _ n ih =>
    match n with
    | 0 => intro m hm; simpa [createGaussianPyramid] using hm
    | 1 => intro m hm; simpa [createGaussianPyramid] using hm
    | k + 2 =>
      intro m hm
      rw [createGaussianPyramid] at hm
      rcases List.mem_cons.1 hm with h | h
      · exact h
      · exact ih (k + 1) (by omega) m (by simpa using h)

/-- C9 counterexample: blending the constant-7 image with itself under
all-zero masks (a legal mask configuration) yields 0 at pixel (0,0)
instead of reproducing the value 7: the per-level normalized weights do
not sum to 1 where both masks vanish — the zero-sum guard zeroes them. -/
theorem multibandBlend_zero_masks :
    multibandBlend id id plane7 plane7 plane0 plane0 5 0 0 = 0 ∧
    plane7 0 0 = 7 := by
  constructor
  · unfold multibandBlend
    rw [reconstruct_zero _ (blendLevels_zero_masks _ _ _ _
      (gauss_all_zero 5) (gauss_all_zero 5))]
    rfl
  · rfl

/-- C9 witness: with full masks (constant 255) every weight sum is
nonzero, and five-band blending of the constant-7 image with itself
reproduces it exactly. -/
theorem multibandBlend_identical_witness :
    1 ≤ 5 ∧ multibandBlend id id plane7 plane7 plane255 plane255 5 = plane7 :=
  ⟨by decide,
   multibandBlend_identical id id plane7 plane255 plane255 5 (by decide)
     (by
       intro q hq x y
       rw [show createGaussianPyramid id plane255 5 =
         [plane255, plane255, plane255, plane255, plane255] from rfl] at hq
       simp at hq
       subst hq
       norm_num [plane255])⟩

/-- C2 witness: the rejection characterization applied at the
degenerate-determinant SVD outcome over the unit square, confirming the
returned candidate has H(2,2) = 1. -/
theorem computeHomographyDLT_reject_iff_witness :
    quad4.length = 4 ∧ degH.h22 = 1 :=
  ⟨rfl,
   (computeHomographyDLT_reject_iff (fun _ => some degRow) quad4 quad4
      rfl rfl).2 degH
     (by norm_num [computeHomographyDLT, quad4, degRow, degH, homographyEpsilon,
          Mat3.smul, mat3OfRow]
         decide)⟩
